import Mathlib

/-!
# espresso-rs: the C entry points of `src/api.c`

A shallow embedding of the four entry points of `api.c` (`run_espresso`,
`run_d1merge`, `run_espresso_from_data`, `run_d1merge_from_data`) and of its
two stream helpers (`create_file_with_contents`, `read_file_contents`).

* Covers are values: a `pcover` is the list of its cubes, in order.
* The espresso library functions that `api.c` calls but does not define
  (`read_pla`, `espresso`, `verify`, `check_consistency`, `d1merge`,
  `fprint_pla`) are the fields of an `Engine`, so every theorem holds for
  every implementation of them.
* Every call that acquires or releases a resource, and every call into the
  library, is recorded in a trace of `Call`s in program order.
* A stdio stream is its byte content with a file position.
* C `int` values are `Int`s.  The only arithmetic of `api.c` is
  `cube.num_vars - 1` and `i++` up to `last + 1`; for a variable count
  `0 ≤ num_vars ≤ INT_MAX` both stay inside the `int` range.
-/

namespace Espresso

/-! ## Data model -/

/-- One byte of a buffer or stream. -/
abbrev Byte := Fin 256

/-- A cube: the bit vector of one product term. -/
abbrev pcube := List Bool

/-- A cover (set family): its cubes, in storage order. -/
abbrev pcover := List pcube

/-- The fields of the `PLA` structure that `api.c` reads or writes. -/
structure pPLA where
  F : pcover
  D : pcover
  R : pcover
  filename : Option String
deriving DecidableEq, Repr

/-- The field of the global `cube` structure that `api.c` reads. -/
structure cube_struct where
  num_vars : Int
deriving DecidableEq, Repr

/-- A stdio stream: the bytes of the file and the file position.  A stream
that is not `seekable` makes `fseek` fail. -/
structure FILE where
  data : List Byte
  pos : Nat
  seekable : Bool
deriving DecidableEq, Repr

/-- A `char *` value: `none` is `NULL`, `some bs` an allocated buffer holding
the bytes `bs`. -/
abbrev charptr := Option (List Byte)

/-- The value a `char *` function hands back: `api.c` either executes
`return NULL;` or runs off the end of the function without a `return`. -/
inductive RetVal where
  | NULL
  | indeterminate
deriving DecidableEq, Repr

/-- The calls of `api.c` that acquire or release a resource or enter the
espresso library, with the arguments the claims are about. -/
inductive Call where
  | tmpfile
  | fclose
  | read_pla
  | sf_save (F : pcover)
  | espresso (F D R : pcover)
  | verify (F Fold D : pcover)
  | check_consistency (PLA : pPLA)
  | free_cover (F : pcover)
  | d1merge (F : pcover) (i : Int)
  | fprint_pla (PLA : pPLA) (out_type : Int)
  | free_PLA (PLA : pPLA)
  | FREE_part_size
  | setdown_cube
  | sf_cleanup
  | sm_cleanup
deriving DecidableEq, Repr

/-- The espresso library as `api.c` uses it.  `read_pla` is `none` when the C
function returns `EOF`; `verify` is `true` when the C function reports an
error (the covers differ); the result of `check_consistency` is discarded by
`api.c`.  `F_type` and `FD_type` are the constants of `espresso.h`. -/
structure Engine where
  F_type : Int
  FD_type : Int
  read_pla : FILE → Bool → Bool → Int → Option (pPLA × cube_struct)
  espresso : pcover → pcover → pcover → pcover
  verify : pcover → pcover → pcover → Bool
  check_consistency : pPLA → Bool
  d1merge : pcover → Int → pcover
  fprint_pla : pPLA → Int → List Byte

/-- The C library as far as `read_file_contents` observes it: whether
`malloc` of a given size succeeds. -/
structure Libc where
  malloc_ok : Nat → Bool

/-- Modelled from the spec: `sf_save` is declared in `espresso.h` and defined
outside `api.c`.  The spec (section 3) calls the checkpoint "a deep,
independently-owned duplicate of the on-set cover"; for covers as values the
duplicate is the same list of cubes. -/
def sf_save (A : pcover) : pcover := A

/-! ## stdio -/

/-- `LONG_MAX` of an LP64 platform. -/
def LONG_MAX : Int := 2 ^ 63 - 1

/-- `tmpfile()`: a fresh, empty, seekable stream (the call is taken to
succeed; `api.c` does not check its result). -/
def tmpfile : FILE := { data := [], pos := 0, seekable := true }

/-- `fwrite(data, length, 1, f)`: the first `length` bytes of `data` replace
the bytes at the file position, which moves past them. -/
def fwrite (data : List Byte) (length : Nat) (f : FILE) : FILE :=
  let bytes := data.take length
  { f with data := f.data.take f.pos ++ bytes ++ f.data.drop (f.pos + bytes.length),
           pos := f.pos + bytes.length }

/-- `rewind(f)`. -/
def rewind (f : FILE) : FILE := { f with pos := 0 }

/-- `fseek(f, 0, SEEK_END)`: the return value and the stream. -/
def fseek_END (f : FILE) : Int × FILE :=
  if f.seekable then (0, { f with pos := f.data.length }) else (-1, f)

/-- `fseek(f, 0L, SEEK_SET)`: the return value and the stream. -/
def fseek_SET (f : FILE) : Int × FILE :=
  if f.seekable then (0, { f with pos := 0 }) else (-1, f)

/-- `ftell(f)`: the file position, or `-1` when it does not fit a `long`. -/
def ftell (f : FILE) : Int :=
  if (f.pos : Int) ≤ LONG_MAX then (f.pos : Int) else -1

/-- `fread(buffer, size, 1, f)`: the number of complete items read (0 or 1)
and the bytes stored.  A `size` of zero reads nothing and returns 0; an item
that the rest of the stream cannot fill is not complete. -/
def fread (size : Nat) (f : FILE) : Nat × List Byte :=
  let rest := f.data.drop f.pos
  if size = 0 then (0, [])
  else if size ≤ rest.length then (1, rest.take size)
  else (0, rest)

/-- `create_file_with_contents(data, length)`. -/
def create_file_with_contents (data : List Byte) (length : Nat) : FILE :=
  let f := tmpfile
  let f := fwrite data length f
  let f := rewind f
  f

/-- `read_file_contents(f)`.  A negative `length` (a failed `ftell`) turns
into a `size_t` that no stream can fill, so `fread` returns 0. -/
def read_file_contents (L : Libc) (f : FILE) : charptr :=
  let (r1, f) := fseek_END f
  if r1 ≠ 0 then none
  else
    let length := ftell f
    let (r2, f) := fseek_SET f
    if r2 ≠ 0 then none
    else if ¬ L.malloc_ok (length + 1).toNat then none
    else if length < 0 then none
    else
      let (items, buffer) := fread length.toNat f
      if items ≠ 1 then none
      else some (buffer ++ [(0 : Byte)])

/-! ## The pipelines -/

/-- What a pipeline run leaves behind: the returned pointer, the output
stream, and the calls made, in order. -/
structure RunResult where
  ret : RetVal
  outfile : FILE
  trace : List Call
deriving DecidableEq, Repr

/-- `fprint_pla(outfile, PLA, out_type)`: the text of the engine is written
at the position of the output stream. -/
def fprint_pla (E : Engine) (outfile : FILE) (PLA : pPLA) (out_type : Int) : FILE :=
  let text := E.fprint_pla PLA out_type
  fwrite text text.length outfile

/-- The five calls under the comment `cleanup all used memory`. -/
def cleanup (PLA : pPLA) : List Call :=
  [Call.free_PLA PLA, Call.FREE_part_size, Call.setdown_cube, Call.sf_cleanup, Call.sm_cleanup]

/-- `run_espresso(fpla, outfile)`.  `EXECUTE(stmt, ...)` runs `stmt` and
accounts its time, which the embedding does not observe. -/
def run_espresso (E : Engine) (fpla outfile : FILE) : RunResult :=
  let out_type := E.F_type
  match E.read_pla fpla true true E.FD_type with
  | none => { ret := RetVal.NULL, outfile := outfile, trace := [Call.read_pla] }
  | some (PLA0, _) =>
    let PLA1 : pPLA := { PLA0 with filename := none }
    let fold := sf_save PLA1.F
    let PLA2 : pPLA := { PLA1 with F := E.espresso PLA1.F PLA1.D PLA1.R }
    let error := E.verify PLA2.F fold PLA2.D
    let PLA3 : pPLA := if error then { PLA2 with F := fold } else PLA2
    let decision : List Call :=
      if error then [Call.check_consistency PLA3] else [Call.free_cover fold]
    { ret := RetVal.indeterminate
      outfile := fprint_pla E outfile PLA3 out_type
      trace := [Call.read_pla, Call.sf_save PLA1.F, Call.espresso PLA1.F PLA1.D PLA1.R,
                Call.verify PLA2.F fold PLA2.D]
               ++ decision ++ [Call.fprint_pla PLA3 out_type] ++ cleanup PLA3 }

/-- Lines 62-67 of `run_d1merge`: the clamping of `first` and `last`. -/
def clamp_range (first last num_vars : Int) : Int × Int :=
  let first := if first < 0 ∨ first ≥ num_vars then 0 else first
  let last := if last < 0 ∨ last ≥ num_vars then num_vars - 1 else last
  (first, last)

/-- The loop `for (i = first; i <= last; i++) PLA->F = d1merge(PLA->F, i);`
entered with `i`: the final on-set and the `d1merge` calls made. -/
def d1merge_loop (E : Engine) (i last : Int) (F : pcover) : pcover × List Call :=
  if i ≤ last then
    let r := d1merge_loop E (i + 1) last (E.d1merge F i)
    (r.1, Call.d1merge F i :: r.2)
  else (F, [])
termination_by (last + 1 - i).toNat
decreasing_by omega

/-- `run_d1merge(fpla, outfile)`. -/
def run_d1merge (E : Engine) (fpla outfile : FILE) : RunResult :=
  let out_type := E.F_type
  let first : Int := -1
  let last : Int := -1
  match E.read_pla fpla true true E.FD_type with
  | none => { ret := RetVal.NULL, outfile := outfile, trace := [Call.read_pla] }
  | some (PLA0, cube) =>
    let PLA1 : pPLA := { PLA0 with filename := none }
    let (first, last) := clamp_range first last cube.num_vars
    let r := d1merge_loop E first last PLA1.F
    let PLA2 : pPLA := { PLA1 with F := r.1 }
    { ret := RetVal.indeterminate
      outfile := fprint_pla E outfile PLA2 out_type
      trace := [Call.read_pla] ++ r.2 ++ [Call.fprint_pla PLA2 out_type] ++ cleanup PLA2 }

/-! ## The buffer entry points -/

/-- What a buffer entry point leaves behind: the returned pointer, the
content of `*out` when the call returns, and the calls made, in order. -/
structure DataResult where
  ret : RetVal
  out : charptr
  trace : List Call
deriving DecidableEq, Repr

/-- `run_espresso_from_data(data, length, out)`; the last argument is the
content of `*out` when the call is made. -/
def run_espresso_from_data (L : Libc) (E : Engine) (data : List Byte) (length : Nat)
    (out : charptr) : DataResult :=
  if length = 0 then { ret := RetVal.NULL, out := out, trace := [] }
  else
    let tempPLA := create_file_with_contents data length
    let outfile := tmpfile
    let r := run_espresso E tempPLA outfile
    { ret := RetVal.indeterminate
      out := read_file_contents L r.outfile
      trace := [Call.tmpfile, Call.tmpfile] ++ r.trace ++ [Call.fclose, Call.fclose] }

/-- `run_d1merge_from_data(data, length, out)`; the last argument is the
content of `*out` when the call is made. -/
def run_d1merge_from_data (L : Libc) (E : Engine) (data : List Byte) (length : Nat)
    (out : charptr) : DataResult :=
  if length = 0 then { ret := RetVal.NULL, out := out, trace := [] }
  else
    let tempPLA := create_file_with_contents data length
    let outfile := tmpfile
    let r := run_d1merge E tempPLA outfile
    { ret := RetVal.indeterminate
      out := read_file_contents L r.outfile
      trace := [Call.tmpfile, Call.tmpfile] ++ r.trace ++ [Call.fclose, Call.fclose] }

/-! ## Observations on a trace -/

/-- The specification handed to the first `fprint_pla` call of a trace. -/
def serialized : List Call → Option pPLA
  | [] => none
  | Call.fprint_pla PLA _ :: _ => some PLA
  | _ :: rest => serialized rest

/-- The covers released by the calls of a trace, in order: `free_cover`
releases its argument, `free_PLA` the three covers of the specification. -/
def released : List Call → List pcover
  | [] => []
  | Call.free_cover F :: rest => F :: released rest
  | Call.free_PLA PLA :: rest => PLA.F :: PLA.D :: PLA.R :: released rest
  | _ :: rest => released rest

/-- Whether a call is `free_PLA`. -/
def is_free_PLA : Call → Bool
  | Call.free_PLA _ => true
  | _ => false

/-- Whether a call is `free_cover`. -/
def is_free_cover : Call → Bool
  | Call.free_cover _ => true
  | _ => false

/-- Whether a call is `d1merge`. -/
def is_d1merge : Call → Bool
  | Call.d1merge _ _ => true
  | _ => false

/-- The left fold `d1merge(... d1merge(d1merge(F0, 0), 1) ..., n-1)` of the
claim about the adjacency-merge pipeline. -/
def d1merge_fold (E : Engine) (F0 : pcover) (n : Nat) : pcover :=
  (List.range n).foldl (fun F (i : Nat) => E.d1merge F (i : Int)) F0

/-! ## Sample inputs -/

/-- The on-set of the two-variable example of the spec: the minterms 00 and 11,
in positional notation with one output bit. -/
def xnor_F : pcover := [[true, false, true, false, true], [false, true, false, true, true]]

/-- The off-set of the example: the minterms 01 and 10. -/
def xnor_R : pcover := [[true, false, false, true, true], [false, true, true, false, true]]

/-- The specification of the example, as `read_pla` hands it over. -/
def xnor_PLA : pPLA := { F := xnor_F, D := [], R := xnor_R, filename := some "stdin" }

/-- A sample library: a stream whose next byte is a dot is read as the example
specification with three variables, every other stream is at end of input;
`espresso` returns the on-set it is given, `verify` reports an error exactly
when the two covers differ, `d1merge` appends the parity bit of the index to
every cube, and `fprint_pla` writes a dot and one digit per cube of the
on-set. -/
def sampleEngine : Engine where
  F_type := 1
  FD_type := 3
  read_pla := fun f _ _ _ =>
    match f.data.drop f.pos with
    | b :: _ => if b = 46 then some (xnor_PLA, { num_vars := 3 }) else none
    | [] => none
  espresso := fun F _ _ => F
  verify := fun F Fold _ => decide (F ≠ Fold)
  check_consistency := fun _ => false
  d1merge := fun F i => F.map (fun c => c ++ [decide (i % 2 = 0)])
  fprint_pla := fun PLA _ => 46 :: PLA.F.map (fun c => if c.length ≤ 5 then 49 else 50)

/-- The sample library with a minimizer that loses the minterm 11, so that
`verify` reports an error. -/
def lossyEngine : Engine := { sampleEngine with espresso := fun F _ _ => F.take 1 }

/-- A C library whose `malloc` always succeeds. -/
def sampleLibc : Libc := { malloc_ok := fun _ => true }

/-- An input stream holding `.i 2`, which the sample library reads as the
example specification. -/
def dot_stream : FILE := create_file_with_contents [46, 105, 32, 50] 4

/-- An input stream holding a single newline, on which the sample library
reports end of input. -/
def newline_stream : FILE := create_file_with_contents [10] 1

/-! ## Lemmas -/

theorem d1merge_loop_range (E : Engine) (k : Nat) : ∀ (i : Int) (F : pcover),
    d1merge_loop E i (i + k - 1) F =
      ((List.range k).foldl (fun G (j : Nat) => E.d1merge G (i + j)) F,
       (List.range k).map (fun j =>
          Call.d1merge ((List.range j).foldl (fun G (j' : Nat) => E.d1merge G (i + j')) F) (i + j))) := by
  induction k with
  | zero =>
    intro i F
    rw [d1merge_loop]
    simp
  | succ k ih =>
    intro i F
    rw [d1merge_loop]
    have hle : i ≤ i + ((k + 1 : Nat) : Int) - 1 := by push_cast; omega
    have e : i + ((k + 1 : Nat) : Int) - 1 = (i + 1) + (k : Int) - 1 := by push_cast; ring
    rw [if_pos hle, e, ih (i + 1) (E.d1merge F i)]
    have hshift : ∀ (m : Nat) (G : pcover),
        (List.range m).foldl (fun G (j : Nat) => E.d1merge G (i + 1 + j)) (E.d1merge G i) =
        (List.range (m + 1)).foldl (fun G (j : Nat) => E.d1merge G (i + j)) G := by
      intro m G
      rw [List.range_succ_eq_map, List.foldl_cons, List.foldl_map]
      simp [add_assoc, add_comm (1 : Int)]
    refine Prod.ext ?_ ?_
    · exact hshift k F
    · show _ :: _ = _
      rw [List.range_succ_eq_map (n := k), List.map_cons, List.map_map]
      simp only [List.range_zero, List.foldl_nil, Nat.cast_zero, add_zero]
      congr 1
      apply List.map_congr_left
      intro j _
      simp only [Function.comp]
      rw [hshift j F]
      congr 1
      push_cast
      ring

/-- The loop of `run_d1merge` always terminates with a result: entered at 0
with `last = n - 1` it computes the left fold and makes the `n` calls of the
fold, in order. -/
theorem d1merge_loop_from_zero (E : Engine) (n : Nat) (F : pcover) :
    d1merge_loop E 0 ((n : Int) - 1) F =
      (d1merge_fold E F n,
       (List.range n).map (fun i => Call.d1merge (d1merge_fold E F i) (i : Int))) := by
  have h := d1merge_loop_range E n 0 F
  simpa [d1merge_fold] using h

theorem filter_d1merge_map (g : Nat → pcover) (l : List Nat) :
    (l.map (fun i => Call.d1merge (g i) (i : Int))).filter is_d1merge =
      l.map (fun i => Call.d1merge (g i) (i : Int)) := by
  induction l with
  | nil => rfl
  | cons a l ih => simp [is_d1merge, ih]

theorem serialized_d1merge_map (g : Nat → pcover) (l : List Nat) (rest : List Call) :
    serialized (l.map (fun i => Call.d1merge (g i) (i : Int)) ++ rest) = serialized rest := by
  induction l with
  | nil => rfl
  | cons a l ih => simpa [serialized] using ih

theorem read_file_contents_tmpfile (L : Libc) : read_file_contents L tmpfile = none := by
  simp [read_file_contents, fseek_END, fseek_SET, ftell, fread, tmpfile, LONG_MAX]

/-- The shape of a successful `run_d1merge`. -/
theorem run_d1merge_trace (E : Engine) (fpla outfile : FILE) (PLA0 : pPLA) (cube : cube_struct)
    (hread : E.read_pla fpla true true E.FD_type = some (PLA0, cube)) :
    ∃ (calls : List Call) (PLA : pPLA),
      (∀ c ∈ calls, is_d1merge c = true) ∧
      (run_d1merge E fpla outfile).trace
        = Call.read_pla :: (calls ++ (Call.fprint_pla PLA E.F_type :: cleanup PLA)) := by
  have hall : ∀ (k : Nat) (i last : Int) (F : pcover), (last + 1 - i).toNat ≤ k →
      ∀ c ∈ (d1merge_loop E i last F).2, is_d1merge c = true := by
    intro k
    induction k with
    | zero =>
      intro i last F hk c hc
      rw [d1merge_loop, if_neg (by omega)] at hc
      simp at hc
    | succ k ih =>
      intro i last F hk c hc
      rw [d1merge_loop] at hc
      by_cases hle : i ≤ last
      · rw [if_pos hle] at hc
        rcases List.mem_cons.mp hc with h | h
        · subst h
          rfl
        · exact ih (i + 1) last (E.d1merge F i) (by omega) c h
      · rw [if_neg hle] at hc
        simp at hc
  refine ⟨(d1merge_loop E (clamp_range (-1) (-1) cube.num_vars).1
            (clamp_range (-1) (-1) cube.num_vars).2 PLA0.F).2,
          { PLA0 with
              F := (d1merge_loop E (clamp_range (-1) (-1) cube.num_vars).1
                      (clamp_range (-1) (-1) cube.num_vars).2 PLA0.F).1,
              filename := none },
          hall _ _ _ _ (le_refl _), ?_⟩
  simp [run_d1merge, hread]

/-- After a successful `read_pla`, on the verified branch, on the rollback
branch and in `run_d1merge`, each of the five cleanup calls is made exactly
once. -/
theorem cleanup_once_after_ingestion (E : Engine) (fpla outfile : FILE) (PLA0 : pPLA)
    (cube : cube_struct)
    (hread : E.read_pla fpla true true E.FD_type = some (PLA0, cube)) :
    ((run_espresso E fpla outfile).trace.countP is_free_PLA = 1 ∧
     (run_espresso E fpla outfile).trace.count Call.FREE_part_size = 1 ∧
     (run_espresso E fpla outfile).trace.count Call.setdown_cube = 1 ∧
     (run_espresso E fpla outfile).trace.count Call.sf_cleanup = 1 ∧
     (run_espresso E fpla outfile).trace.count Call.sm_cleanup = 1) ∧
    ((run_d1merge E fpla outfile).trace.countP is_free_PLA = 1 ∧
     (run_d1merge E fpla outfile).trace.count Call.FREE_part_size = 1 ∧
     (run_d1merge E fpla outfile).trace.count Call.setdown_cube = 1 ∧
     (run_d1merge E fpla outfile).trace.count Call.sf_cleanup = 1 ∧
     (run_d1merge E fpla outfile).trace.count Call.sm_cleanup = 1) := by
  constructor
  · cases herr : E.verify (E.espresso PLA0.F PLA0.D PLA0.R) PLA0.F PLA0.D <;>
      simp [run_espresso, hread, sf_save, herr, cleanup, is_free_PLA, List.count_cons,
        List.countP_cons]
  · obtain ⟨calls, PLA, hcalls, htrace⟩ := run_d1merge_trace E fpla outfile PLA0 cube hread
    have hP : calls.countP is_free_PLA = 0 := by
      rw [List.countP_eq_zero]
      intro c hc
      have := hcalls c hc
      cases c <;> simp_all [is_d1merge, is_free_PLA]
    have hcount : ∀ c : Call, is_d1merge c = false → calls.count c = 0 := by
      intro c hcf
      rw [List.count_eq_zero]
      intro hmem
      have := hcalls c hmem
      rw [hcf] at this
      exact Bool.noConfusion this
    rw [htrace]
    simp [cleanup, is_free_PLA, List.count_cons, List.countP_cons, hP,
      hcount Call.FREE_part_size rfl, hcount Call.setdown_cube rfl,
      hcount Call.sf_cleanup rfl, hcount Call.sm_cleanup rfl]

/-- The covers `run_espresso` releases after a successful `read_pla`: on the
verified branch the checkpoint (by `free_cover`), the minimized on-set, the
don't-care set and the off-set; on the rollback branch the checkpoint, the
don't-care set and the off-set, with no `free_cover` call. -/
theorem run_espresso_released (E : Engine) (fpla outfile : FILE) (PLA0 : pPLA)
    (cube : cube_struct)
    (hread : E.read_pla fpla true true E.FD_type = some (PLA0, cube)) :
    (E.verify (E.espresso PLA0.F PLA0.D PLA0.R) (sf_save PLA0.F) PLA0.D = false →
      released (run_espresso E fpla outfile).trace
        = [sf_save PLA0.F, E.espresso PLA0.F PLA0.D PLA0.R, PLA0.D, PLA0.R]) ∧
    (E.verify (E.espresso PLA0.F PLA0.D PLA0.R) (sf_save PLA0.F) PLA0.D = true →
      released (run_espresso E fpla outfile).trace = [sf_save PLA0.F, PLA0.D, PLA0.R] ∧
      (run_espresso E fpla outfile).trace.countP is_free_cover = 0) := by
  constructor
  · intro herr
    have herr0 : E.verify (E.espresso PLA0.F PLA0.D PLA0.R) PLA0.F PLA0.D = false := herr
    simp [run_espresso, hread, sf_save, herr0, cleanup, released]
  · intro herr
    have herr0 : E.verify (E.espresso PLA0.F PLA0.D PLA0.R) PLA0.F PLA0.D = true := herr
    simp [run_espresso, hread, sf_save, herr0, cleanup, released, is_free_cover,
      List.countP_cons]

/-! ## The minimization pipeline -/

/-- C1: when `read_pla` succeeds and `verify` accepts the ingested on-set
against itself, the specification that `run_espresso` hands to `fprint_pla`
(and whose text lands in the output stream) has an on-set that `verify`
accepts against the ingested on-set modulo the don't-care set: it is
`espresso(F0, D, R)` when `verify` reports no error on it and the saved copy
of `F0` when `verify` reports an error. -/
theorem run_espresso_serialized_accepted (E : Engine) (fpla outfile : FILE)
    (PLA0 : pPLA) (cube : cube_struct)
    (hread : E.read_pla fpla true true E.FD_type = some (PLA0, cube))
    (hself : E.verify PLA0.F PLA0.F PLA0.D = false) :
    ∃ PLA : pPLA,
      serialized (run_espresso E fpla outfile).trace = some PLA ∧
      (run_espresso E fpla outfile).outfile = fprint_pla E outfile PLA E.F_type ∧
      E.verify PLA.F PLA0.F PLA0.D = false ∧
      (E.verify (E.espresso PLA0.F PLA0.D PLA0.R) PLA0.F PLA0.D = false →
        PLA.F = E.espresso PLA0.F PLA0.D PLA0.R) ∧
      (E.verify (E.espresso PLA0.F PLA0.D PLA0.R) PLA0.F PLA0.D = true →
        PLA.F = sf_save PLA0.F) := by
  cases herr : E.verify (E.espresso PLA0.F PLA0.D PLA0.R) PLA0.F PLA0.D with
  | false =>
    refine ⟨{ PLA0 with F := E.espresso PLA0.F PLA0.D PLA0.R, filename := none }, ?_⟩
    simp [run_espresso, hread, sf_save, herr, serialized, cleanup]
  | true =>
    refine ⟨{ PLA0 with filename := none }, ?_⟩
    simp [run_espresso, hread, sf_save, herr, serialized, cleanup, hself]

/-- C1, on the rollback branch of the example: the lossy minimizer is
rejected and the serialized on-set is the ingested one. -/
theorem run_espresso_serialized_accepted_witness :
    lossyEngine.read_pla dot_stream true true lossyEngine.FD_type
        = some (xnor_PLA, { num_vars := 3 }) ∧
    lossyEngine.verify xnor_PLA.F xnor_PLA.F xnor_PLA.D = false ∧
    ∃ PLA : pPLA,
      serialized (run_espresso lossyEngine dot_stream tmpfile).trace = some PLA ∧
      (run_espresso lossyEngine dot_stream tmpfile).outfile
        = fprint_pla lossyEngine tmpfile PLA lossyEngine.F_type ∧
      lossyEngine.verify PLA.F xnor_PLA.F xnor_PLA.D = false ∧
      (lossyEngine.verify (lossyEngine.espresso xnor_PLA.F xnor_PLA.D xnor_PLA.R)
          xnor_PLA.F xnor_PLA.D = false →
        PLA.F = lossyEngine.espresso xnor_PLA.F xnor_PLA.D xnor_PLA.R) ∧
      (lossyEngine.verify (lossyEngine.espresso xnor_PLA.F xnor_PLA.D xnor_PLA.R)
          xnor_PLA.F xnor_PLA.D = true →
        PLA.F = sf_save xnor_PLA.F) :=
  ⟨by decide, by decide,
   run_espresso_serialized_accepted lossyEngine dot_stream tmpfile xnor_PLA { num_vars := 3 }
     (by decide) (by decide)⟩

/-- C2: when `verify` reports an error on the minimized on-set against the
checkpoint, the specification handed to `fprint_pla` holds the very on-set
`read_pla` produced (same cubes, same order), and the don't-care and off-set
covers that were ingested: saving the on-set and assigning the copy back
changes nothing. -/
theorem run_espresso_rollback_is_identity (E : Engine) (fpla outfile : FILE)
    (PLA0 : pPLA) (cube : cube_struct)
    (hread : E.read_pla fpla true true E.FD_type = some (PLA0, cube))
    (herr : E.verify (E.espresso PLA0.F PLA0.D PLA0.R) (sf_save PLA0.F) PLA0.D = true) :
    ∃ PLA : pPLA,
      serialized (run_espresso E fpla outfile).trace = some PLA ∧
      PLA.F = PLA0.F ∧ PLA.D = PLA0.D ∧ PLA.R = PLA0.R := by
  have herr0 : E.verify (E.espresso PLA0.F PLA0.D PLA0.R) PLA0.F PLA0.D = true := herr
  refine ⟨{ PLA0 with filename := none }, ?_⟩
  simp [run_espresso, hread, herr0, sf_save, serialized, cleanup]

/-- C2, on the example with the lossy minimizer. -/
theorem run_espresso_rollback_is_identity_witness :
    lossyEngine.read_pla dot_stream true true lossyEngine.FD_type
        = some (xnor_PLA, { num_vars := 3 }) ∧
    lossyEngine.verify (lossyEngine.espresso xnor_PLA.F xnor_PLA.D xnor_PLA.R)
        (sf_save xnor_PLA.F) xnor_PLA.D = true ∧
    ∃ PLA : pPLA,
      serialized (run_espresso lossyEngine dot_stream tmpfile).trace = some PLA ∧
      PLA.F = xnor_PLA.F ∧ PLA.D = xnor_PLA.D ∧ PLA.R = xnor_PLA.R :=
  ⟨by decide, by decide,
   run_espresso_rollback_is_identity lossyEngine dot_stream tmpfile xnor_PLA { num_vars := 3 }
     (by decide) (by decide)⟩

/-! ## Ingestion failure and the empty buffer -/

/-- C3: for a buffer of positive length on which `read_pla` reports `EOF`,
`run_espresso` and `run_d1merge` return `NULL` having called nothing but
`read_pla` and leave the fresh output stream empty; `read_file_contents` of
that empty stream is `NULL`, so both buffer entry points store `NULL` in
`*out`, whatever it held before. -/
theorem ingestion_failure_stores_NULL (L : Libc) (E : Engine) (data : List Byte)
    (length : Nat) (out0 : charptr) (hlen : 0 < length)
    (heof : E.read_pla (create_file_with_contents data length) true true E.FD_type = none) :
    run_espresso E (create_file_with_contents data length) tmpfile
      = { ret := RetVal.NULL, outfile := tmpfile, trace := [Call.read_pla] } ∧
    run_d1merge E (create_file_with_contents data length) tmpfile
      = { ret := RetVal.NULL, outfile := tmpfile, trace := [Call.read_pla] } ∧
    read_file_contents L tmpfile = none ∧
    (run_espresso_from_data L E data length out0).out = none ∧
    (run_d1merge_from_data L E data length out0).out = none := by
  have h0 : length ≠ 0 := Nat.pos_iff_ne_zero.mp hlen
  have he : run_espresso E (create_file_with_contents data length) tmpfile
      = { ret := RetVal.NULL, outfile := tmpfile, trace := [Call.read_pla] } := by
    simp [run_espresso, heof]
  have hd : run_d1merge E (create_file_with_contents data length) tmpfile
      = { ret := RetVal.NULL, outfile := tmpfile, trace := [Call.read_pla] } := by
    simp [run_d1merge, heof]
  refine ⟨he, hd, read_file_contents_tmpfile L, ?_, ?_⟩
  · simp [run_espresso_from_data, h0, he, read_file_contents_tmpfile]
  · simp [run_d1merge_from_data, h0, hd, read_file_contents_tmpfile]

/-- C3, on a buffer holding one newline, with a stale buffer in `*out`. -/
theorem ingestion_failure_stores_NULL_witness :
    0 < 1 ∧
    sampleEngine.read_pla (create_file_with_contents [10] 1) true true sampleEngine.FD_type
      = none ∧
    run_espresso sampleEngine (create_file_with_contents [10] 1) tmpfile
      = { ret := RetVal.NULL, outfile := tmpfile, trace := [Call.read_pla] } ∧
    run_d1merge sampleEngine (create_file_with_contents [10] 1) tmpfile
      = { ret := RetVal.NULL, outfile := tmpfile, trace := [Call.read_pla] } ∧
    read_file_contents sampleLibc tmpfile = none ∧
    (run_espresso_from_data sampleLibc sampleEngine [10] 1 (some [65])).out = none ∧
    (run_d1merge_from_data sampleLibc sampleEngine [10] 1 (some [65])).out = none :=
  ⟨by decide, by decide,
   ingestion_failure_stores_NULL sampleLibc sampleEngine [10] 1 (some [65])
     (by decide) (by decide)⟩

/-- C4: with `length = 0` both buffer entry points return `NULL` and have made
no call at all: no stream was created, `read_pla` was not invoked, no pipeline
step ran. -/
theorem zero_length_returns_NULL_first (L : Libc) (E : Engine) (data : List Byte)
    (out0 : charptr) :
    (run_espresso_from_data L E data 0 out0).ret = RetVal.NULL ∧
    (run_espresso_from_data L E data 0 out0).trace = [] ∧
    (run_d1merge_from_data L E data 0 out0).ret = RetVal.NULL ∧
    (run_d1merge_from_data L E data 0 out0).trace = [] := by
  simp [run_espresso_from_data, run_d1merge_from_data]

/-! ## The adjacency-merge pipeline -/

/-- C5: when `read_pla` succeeds with on-set `F0` and `cube.num_vars = n ≥ 0`,
the on-set `run_d1merge` hands to `fprint_pla` is the left fold of `d1merge`
over the indices `0, 1, ..., n-1`, and the `d1merge` calls of the run are
exactly the `n` calls of that fold, in ascending order of the index, each on
the result of the call before; for `n = 0` the on-set is `F0`. -/
theorem run_d1merge_is_left_fold (E : Engine) (fpla outfile : FILE)
    (PLA0 : pPLA) (cube : cube_struct)
    (hread : E.read_pla fpla true true E.FD_type = some (PLA0, cube))
    (hn : 0 ≤ cube.num_vars) :
    ∃ PLA : pPLA,
      serialized (run_d1merge E fpla outfile).trace = some PLA ∧
      PLA.F = d1merge_fold E PLA0.F cube.num_vars.toNat ∧
      (run_d1merge E fpla outfile).trace.filter is_d1merge =
        (List.range cube.num_vars.toNat).map
          (fun i => Call.d1merge (d1merge_fold E PLA0.F i) (i : Int)) ∧
      ((run_d1merge E fpla outfile).trace.filter is_d1merge).length = cube.num_vars.toNat ∧
      (cube.num_vars = 0 → PLA.F = PLA0.F) := by
  obtain ⟨n, hn'⟩ := Int.eq_ofNat_of_zero_le hn
  have hclamp : clamp_range (-1) (-1) cube.num_vars = (0, (n : Int) - 1) := by
    simp [clamp_range, hn']
  have hrun : run_d1merge E fpla outfile =
      { ret := RetVal.indeterminate
        outfile := fprint_pla E outfile
          { PLA0 with F := d1merge_fold E PLA0.F n, filename := none } E.F_type
        trace := Call.read_pla ::
          ((List.range n).map (fun i => Call.d1merge (d1merge_fold E PLA0.F i) (i : Int))
            ++ (Call.fprint_pla { PLA0 with F := d1merge_fold E PLA0.F n, filename := none }
                  E.F_type
                :: cleanup { PLA0 with F := d1merge_fold E PLA0.F n, filename := none })) } := by
    simp only [run_d1merge, hread, hclamp, d1merge_loop_from_zero, List.singleton_append,
      List.append_assoc, List.cons_append, List.nil_append]
  have htn : cube.num_vars.toNat = n := by simp [hn']
  refine ⟨{ PLA0 with F := d1merge_fold E PLA0.F n, filename := none }, ?_, ?_, ?_, ?_, ?_⟩
  · rw [hrun]
    show serialized (_ ++ _) = _
    rw [serialized_d1merge_map]
    rfl
  · rw [htn]
  · rw [hrun, htn]
    simp only [List.filter_cons, List.filter_append, filter_d1merge_map]
    simp [cleanup, is_d1merge]
  · rw [hrun, htn]
    simp only [List.filter_cons, List.filter_append, filter_d1merge_map]
    simp [cleanup, is_d1merge]
  · intro h0
    have : n = 0 := by omega
    subst this
    rfl

/-- C5, on the example with three variables. -/
theorem run_d1merge_is_left_fold_witness :
    sampleEngine.read_pla dot_stream true true sampleEngine.FD_type
      = some (xnor_PLA, { num_vars := 3 }) ∧
    (0 : Int) ≤ 3 ∧
    ∃ PLA : pPLA,
      serialized (run_d1merge sampleEngine dot_stream tmpfile).trace = some PLA ∧
      PLA.F = d1merge_fold sampleEngine xnor_PLA.F 3 ∧
      (run_d1merge sampleEngine dot_stream tmpfile).trace.filter is_d1merge =
        (List.range 3).map
          (fun i => Call.d1merge (d1merge_fold sampleEngine xnor_PLA.F i) (i : Int)) ∧
      ((run_d1merge sampleEngine dot_stream tmpfile).trace.filter is_d1merge).length = 3 ∧
      ((3 : Int) = 0 → PLA.F = xnor_PLA.F) :=
  ⟨by decide, by decide,
   run_d1merge_is_left_fold sampleEngine dot_stream tmpfile xnor_PLA { num_vars := 3 }
     (by decide) (by decide)⟩

/-- C10: the clamping step of `run_d1merge` replaces `first` by 0 when
`first < 0` or `first >= n` and keeps it otherwise, replaces `last` by `n - 1`
when `last < 0` or `last >= n` and keeps it otherwise, so a value inside
`[0, n-1]` is unchanged; for `first = last = -1` the range is `[0, n-1]`, and
that is the range `run_d1merge` clamps. -/
theorem clamp_range_spec (first last n : Int) :
    ((first < 0 ∨ first ≥ n) → (clamp_range first last n).1 = 0) ∧
    (¬ (first < 0 ∨ first ≥ n) → (clamp_range first last n).1 = first) ∧
    ((last < 0 ∨ last ≥ n) → (clamp_range first last n).2 = n - 1) ∧
    (¬ (last < 0 ∨ last ≥ n) → (clamp_range first last n).2 = last) ∧
    ((0 ≤ first ∧ first ≤ n - 1) → (clamp_range first last n).1 = first) ∧
    ((0 ≤ last ∧ last ≤ n - 1) → (clamp_range first last n).2 = last) ∧
    clamp_range (-1) (-1) n = (0, n - 1) := by
  refine ⟨?_, ?_, ?_, ?_, ?_, ?_, ?_⟩
  · intro h
    simp [clamp_range, h]
  · intro h
    simp only [clamp_range, if_neg h]
  · intro h
    simp [clamp_range, h]
  · intro h
    simp only [clamp_range, if_neg h]
  · intro h
    have h' : ¬ (first < 0 ∨ first ≥ n) := by omega
    simp only [clamp_range, if_neg h']
  · intro h
    have h' : ¬ (last < 0 ∨ last ≥ n) := by omega
    simp only [clamp_range, if_neg h']
  · simp [clamp_range]

/-! ## The stream helpers -/

/-- C6: for a byte sequence `b` of length `n > 0` (an `unsigned int`) and a
successful `malloc`, `create_file_with_contents(b, n)` is a stream holding
exactly `b`, positioned at the start, and `read_file_contents` of it returns
the `n + 1` bytes `b` followed by the NUL sentinel; no byte of `b`, NUL
included, is treated specially. -/
theorem create_then_read_round_trip (L : Libc) (b : List Byte) (n : Nat)
    (hn : 0 < n) (hlen : b.length = n) (huint : n < 2 ^ 32)
    (hmalloc : L.malloc_ok (n + 1) = true) :
    create_file_with_contents b n = { data := b, pos := 0, seekable := true } ∧
    read_file_contents L (create_file_with_contents b n) = some (b ++ [(0 : Byte)]) ∧
    (b ++ [(0 : Byte)]).length = n + 1 := by
  subst hlen
  have hcreate : create_file_with_contents b b.length
      = { data := b, pos := 0, seekable := true } := by
    simp [create_file_with_contents, tmpfile, fwrite, rewind]
  have hlong : ((b.length : Nat) : Int) ≤ LONG_MAX := by
    have h1 : ((b.length : Nat) : Int) < 2 ^ 32 := by exact_mod_cast huint
    have h2 : (2 : Int) ^ 32 ≤ LONG_MAX := by decide
    omega
  have hne : b.length ≠ 0 := Nat.pos_iff_ne_zero.mp hn
  refine ⟨hcreate, ?_, by simp⟩
  rw [hcreate]
  simp [read_file_contents, fseek_END, fseek_SET, ftell, fread, hlong, hmalloc, hne]

/-- C6, on three bytes with a NUL in the middle. -/
theorem create_then_read_round_trip_witness :
    0 < 3 ∧ ([1, 0, 2] : List Byte).length = 3 ∧ 3 < 2 ^ 32 ∧
    sampleLibc.malloc_ok (3 + 1) = true ∧
    create_file_with_contents [1, 0, 2] 3 = { data := [1, 0, 2], pos := 0, seekable := true } ∧
    read_file_contents sampleLibc (create_file_with_contents [1, 0, 2] 3)
      = some ([1, 0, 2] ++ [(0 : Byte)]) ∧
    (([1, 0, 2] : List Byte) ++ [(0 : Byte)]).length = 3 + 1 :=
  ⟨by decide, by decide, by decide, by decide,
   create_then_read_round_trip sampleLibc [1, 0, 2] 3 (by decide) (by decide) (by decide)
     (by decide)⟩

/-! ## The output parameter -/

/-- At `length = 0` neither buffer entry point writes `*out`, for every
library and every prior content; at any other length the content of `*out`
at return does not depend on what it held before. -/
theorem out_param_written_only_for_positive_length (L : Libc) (E : Engine)
    (data : List Byte) (length : Nat) (out0 out1 : charptr) :
    (run_espresso_from_data L E data 0 out0).out = out0 ∧
    (run_d1merge_from_data L E data 0 out0).out = out0 ∧
    (0 < length →
      (run_espresso_from_data L E data length out0).out
        = (run_espresso_from_data L E data length out1).out ∧
      (run_d1merge_from_data L E data length out0).out
        = (run_d1merge_from_data L E data length out1).out) := by
  refine ⟨by simp [run_espresso_from_data], by simp [run_d1merge_from_data], ?_⟩
  intro hlen
  have h0 : length ≠ 0 := Nat.pos_iff_ne_zero.mp hlen
  simp [run_espresso_from_data, run_d1merge_from_data, h0]

/-- C7 at a failing input: called with `length = 0` and a stale buffer in
`*out`, both buffer entry points return `NULL` with `*out` still holding that
buffer, which is neither `NULL` nor output of the run (no call was made);
with the same stale buffer and a positive length every other exit writes
`*out`: `NULL` when `read_pla` reports `EOF`, the output bytes with their NUL
sentinel when the specification is ingested. -/
theorem zero_length_leaves_out_untouched :
    run_espresso_from_data sampleLibc sampleEngine [] 0 (some [65])
      = { ret := RetVal.NULL, out := some [65], trace := [] } ∧
    run_d1merge_from_data sampleLibc sampleEngine [] 0 (some [65])
      = { ret := RetVal.NULL, out := some [65], trace := [] } ∧
    (run_espresso_from_data sampleLibc sampleEngine [10] 1 (some [65])).out = none ∧
    (run_d1merge_from_data sampleLibc sampleEngine [10] 1 (some [65])).out = none ∧
    (run_espresso_from_data sampleLibc sampleEngine [46, 105, 32, 50] 4 (some [65])).out
      = some [46, 49, 49, 0] := by
  decide

/-! ## Release of resources -/

/-- C8 at a failing input: on a stream on which `read_pla` reports `EOF`,
`run_espresso` and `run_d1merge` return `NULL` after the `read_pla` call
alone, with no `free_PLA` and no teardown call, while on a stream that is
ingested each of the five cleanup calls is made exactly once. -/
theorem ingestion_failure_skips_cleanup :
    sampleEngine.read_pla newline_stream true true sampleEngine.FD_type = none ∧
    run_espresso sampleEngine newline_stream tmpfile
      = { ret := RetVal.NULL, outfile := tmpfile, trace := [Call.read_pla] } ∧
    run_d1merge sampleEngine newline_stream tmpfile
      = { ret := RetVal.NULL, outfile := tmpfile, trace := [Call.read_pla] } ∧
    (run_espresso sampleEngine newline_stream tmpfile).trace.countP is_free_PLA = 0 ∧
    (run_espresso sampleEngine newline_stream tmpfile).trace.count Call.FREE_part_size = 0 ∧
    (run_espresso sampleEngine newline_stream tmpfile).trace.count Call.setdown_cube = 0 ∧
    (run_espresso sampleEngine newline_stream tmpfile).trace.count Call.sf_cleanup = 0 ∧
    (run_espresso sampleEngine newline_stream tmpfile).trace.count Call.sm_cleanup = 0 ∧
    (run_espresso sampleEngine dot_stream tmpfile).trace.countP is_free_PLA = 1 ∧
    (run_espresso sampleEngine dot_stream tmpfile).trace.count Call.FREE_part_size = 1 ∧
    (run_espresso sampleEngine dot_stream tmpfile).trace.count Call.setdown_cube = 1 ∧
    (run_espresso sampleEngine dot_stream tmpfile).trace.count Call.sf_cleanup = 1 ∧
    (run_espresso sampleEngine dot_stream tmpfile).trace.count Call.sm_cleanup = 1 := by
  decide

/-- C9 at a failing input: with a minimizer whose result `verify` rejects, the
run makes no `free_cover` call; the covers released by the whole run are the
checkpoint, the don't-care set and the off-set, so the minimized cover is
released zero times, while on the verified branch of the sample library the
checkpoint is released by the one `free_cover` call. -/
theorem rollback_never_releases_minimized :
    lossyEngine.verify (lossyEngine.espresso xnor_F [] xnor_R) (sf_save xnor_F) [] = true ∧
    (run_espresso lossyEngine dot_stream tmpfile).trace.countP is_free_cover = 0 ∧
    released (run_espresso lossyEngine dot_stream tmpfile).trace
      = [sf_save xnor_F, [], xnor_R] ∧
    (released (run_espresso lossyEngine dot_stream tmpfile).trace).count
      (lossyEngine.espresso xnor_F [] xnor_R) = 0 ∧
    (run_espresso sampleEngine dot_stream tmpfile).trace.filter is_free_cover
      = [Call.free_cover (sf_save xnor_F)] := by
  decide

end Espresso
